import Mathlib

/-!
Verification of the CapCut render automation script (`capcut-automate.js`).

The script is a single linear procedure: read the dispatch payload, download
the listed assets to `/tmp/capcut_assets`, launch a browser, and drive the
CapCut web UI (login, project creation, upload, timeline and captions,
export, completion polling), finally persisting the exported artifact under
`/tmp`.  We embed it as a deterministic function from an environment
(element presence, fetch responses, credentials, clock) and the payload to
the list of observable actions (the trace) plus the process exit code.

JavaScript-specific semantics that the script relies on are modelled
explicitly: JSON values and `JSON.parse` (an executable parser), JS
truthiness, `path.extname` and `path.join` of Node's posix path module.
-/

/-- JSON values as produced by `JSON.parse`.  Numbers keep their source
lexeme: no claim below depends on numeric semantics, only on truthiness
and structural shape. -/
inductive Json where
  | null
  | bool (b : Bool)
  | num (lexeme : String)
  | str (s : String)
  | arr (elems : List Json)
  | obj (fields : List (String × Json))

mutual

def Json.decEq : (a b : Json) → Decidable (a = b)
  | .null, .null => isTrue rfl
  | .null, .bool _ => isFalse (fun h => by cases h)
  | .null, .num _ => isFalse (fun h => by cases h)
  | .null, .str _ => isFalse (fun h => by cases h)
  | .null, .arr _ => isFalse (fun h => by cases h)
  | .null, .obj _ => isFalse (fun h => by cases h)
  | .bool _, .null => isFalse (fun h => by cases h)
  | .bool x, .bool y =>
    if h : x = y then isTrue (by rw [h]) else isFalse (fun hh => by cases hh; exact h rfl)
  | .bool _, .num _ => isFalse (fun h => by cases h)
  | .bool _, .str _ => isFalse (fun h => by cases h)
  | .bool _, .arr _ => isFalse (fun h => by cases h)
  | .bool _, .obj _ => isFalse (fun h => by cases h)
  | .num _, .null => isFalse (fun h => by cases h)
  | .num _, .bool _ => isFalse (fun h => by cases h)
  | .num x, .num y =>
    if h : x = y then isTrue (by rw [h]) else isFalse (fun hh => by cases hh; exact h rfl)
  | .num _, .str _ => isFalse (fun h => by cases h)
  | .num _, .arr _ => isFalse (fun h => by cases h)
  | .num _, .obj _ => isFalse (fun h => by cases h)
  | .str _, .null => isFalse (fun h => by cases h)
  | .str _, .bool _ => isFalse (fun h => by cases h)
  | .str _, .num _ => isFalse (fun h => by cases h)
  | .str x, .str y =>
    if h : x = y then isTrue (by rw [h]) else isFalse (fun hh => by cases hh; exact h rfl)
  | .str _, .arr _ => isFalse (fun h => by cases h)
  | .str _, .obj _ => isFalse (fun h => by cases h)
  | .arr _, .null => isFalse (fun h => by cases h)
  | .arr _, .bool _ => isFalse (fun h => by cases h)
  | .arr _, .num _ => isFalse (fun h => by cases h)
  | .arr _, .str _ => isFalse (fun h => by cases h)
  | .arr xs, .arr ys =>
    match Json.decEqList xs ys with
    | isTrue h => isTrue (by rw [h])
    | isFalse h => isFalse (fun hh => by cases hh; exact h rfl)
  | .arr _, .obj _ => isFalse (fun h => by cases h)
  | .obj _, .null => isFalse (fun h => by cases h)
  | .obj _, .bool _ => isFalse (fun h => by cases h)
  | .obj _, .num _ => isFalse (fun h => by cases h)
  | .obj _, .str _ => isFalse (fun h => by cases h)
  | .obj _, .arr _ => isFalse (fun h => by cases h)
  | .obj fs, .obj gs =>
    match Json.decEqFields fs gs with
    | isTrue h => isTrue (by rw [h])
    | isFalse h => isFalse (fun hh => by cases hh; exact h rfl)

def Json.decEqList : (xs ys : List Json) → Decidable (xs = ys)
  | [], [] => isTrue rfl
  | [], _ :: _ => isFalse (fun h => by cases h)
  | _ :: _, [] => isFalse (fun h => by cases h)
  | x :: xs, y :: ys =>
    match Json.decEq x y with
    | isFalse h1 => isFalse (fun hh => by cases hh; exact h1 rfl)
    | isTrue h1 =>
      match Json.decEqList xs ys with
      | isTrue h2 => isTrue (by rw [h1, h2])
      | isFalse h2 => isFalse (fun hh => by cases hh; exact h2 rfl)

def Json.decEqFields : (fs gs : List (String × Json)) → Decidable (fs = gs)
  | [], [] => isTrue rfl
  | [], _ :: _ => isFalse (fun h => by cases h)
  | _ :: _, [] => isFalse (fun h => by cases h)
  | (k1, v1) :: fs, (k2, v2) :: gs =>
    if hk : k1 = k2 then
      match Json.decEq v1 v2 with
      | isFalse h1 => isFalse (fun hh => by cases hh; exact h1 rfl)
      | isTrue h1 =>
        match Json.decEqFields fs gs with
        | isTrue h2 => isTrue (by rw [hk, h1, h2])
        | isFalse h2 => isFalse (fun hh => by cases hh; exact h2 rfl)
    else isFalse (fun hh => by cases hh; exact hk rfl)

end

instance : DecidableEq Json := Json.decEq

/-- Digits of a JSON number lexeme before the exponent marker. -/
def numMantissa (lex : String) : List Char :=
  lex.data.takeWhile (fun c => c ≠ 'e' ∧ c ≠ 'E')

/-- Whether a JSON number lexeme denotes zero (every mantissa digit `0`). -/
def numLexIsZero (lex : String) : Bool :=
  ((numMantissa lex).filter (fun c => c.isDigit)).all (fun c => c == '0')

/-- JavaScript truthiness of a JSON value: `null`, `false`, `0` and the
empty string are falsy; arrays and objects are always truthy (so an empty
`assetUrls` array passes `if (!payload.assetUrls)`). -/
def jsTruthy : Json → Bool
  | .null => false
  | .bool b => b
  | .num lex => !numLexIsZero lex
  | .str s => s != ""
  | .arr _ => true
  | .obj _ => true

/-- JavaScript string coercion used when a non-string reaches `JSON.parse`.
An array never reaches the only coercion site (`Array.isArray` is checked
first), so its case is irrelevant. -/
def jsToString : Json → String
  | .null => "null"
  | .bool b => if b then "true" else "false"
  | .num lex => lex
  | .str s => s
  | .arr _ => ""
  | .obj _ => "[object Object]"

/-- Property lookup on a parsed JSON object; later duplicate keys win, as
with `JSON.parse`.  Property access on any non-object value yields
`undefined` (modelled as `none`). -/
def lookupLast (fields : List (String × Json)) (key : String) : Option Json :=
  match fields with
  | [] => none
  | (k, v) :: rest =>
    match lookupLast rest key with
    | some w => some w
    | none => if k = key then some v else none

/-- JavaScript property access `v[key]` as in `scriptObj[i].text`: on
`null` (and on an out-of-range `undefined`) the access throws a TypeError,
modelled as `none`; on an object it yields the property value when present
(`some (some v)`) or `undefined` (`some none`); strings, numbers, booleans
and arrays box rather than throw, yielding `undefined` for `text`. -/
def jsGetProp (j : Json) (key : String) : Option (Option Json) :=
  match j with
  | .null => none
  | .obj fields => some (lookupLast fields key)
  | _ => some none

/-- The `.length` read in `Math.min(6, scriptObj.length)`: defined for
arrays and strings; `undefined` (hence a zero-iteration loop, because
`i < NaN` is false) otherwise. -/
def jsLen : Json → Option Nat
  | .arr l => some l.length
  | .str s => some s.length
  | _ => none

/-- The `scriptObj[i]` read: array element, or one-character string. -/
def jsIndex (j : Json) (i : Nat) : Json :=
  match j with
  | .arr l => l.getD i .null
  | .str s => .str (String.mk [s.data.getD i ' '])
  | _ => .null

/-- The argument of `page.keyboard.type(scriptObj[i].text || scriptObj[i])`
when the property access does not throw (the entry is not `null`): the
entry's `text` property when truthy, otherwise the entry itself. -/
def captionArg (entry : Json) : Json :=
  match jsGetProp entry "text" with
  | some (some t) => if jsTruthy t then t else entry
  | _ => entry

/-- Number of iterations of the caption loop
`for (let i = 0; i < Math.min(6, scriptObj.length); i++)`. -/
def captionIters (j : Json) : Nat :=
  match jsLen j with
  | some n => min 6 n
  | none => 0

def braceOpen : Char := Char.ofNat 123

def braceClose : Char := Char.ofNat 125

def skipWs : List Char → List Char
  | [] => []
  | c :: rest =>
    if c == ' ' || c == '\t' || c == '\n' || c == '\r' then skipWs rest else c :: rest

def hexDigitVal (c : Char) : Option Nat :=
  if '0' ≤ c ∧ c ≤ '9' then some (c.toNat - 48)
  else if 'a' ≤ c ∧ c ≤ 'f' then some (c.toNat - 87)
  else if 'A' ≤ c ∧ c ≤ 'F' then some (c.toNat - 55)
  else none

def parseHex4 : List Char → Option (Nat × List Char)
  | a :: b :: c :: d :: rest =>
    match hexDigitVal a, hexDigitVal b, hexDigitVal c, hexDigitVal d with
    | some x, some y, some z, some w => some (((x * 16 + y) * 16 + z) * 16 + w, rest)
    | _, _, _, _ => none
  | _ => none

/-- JSON string body after the opening quote: content characters and the
remainder after the closing quote. -/
def pStr : Nat → List Char → Option (List Char × List Char)
  | 0, _ => none
  | _ + 1, [] => none
  | fuel + 1, c :: rest =>
    if c == '"' then some ([], rest)
    else if c == '\\' then
      match rest with
      | [] => none
      | e :: rest2 =>
        if e == '"' then (pStr fuel rest2).map (fun p => ('"' :: p.1, p.2))
        else if e == '\\' then (pStr fuel rest2).map (fun p => ('\\' :: p.1, p.2))
        else if e == '/' then (pStr fuel rest2).map (fun p => ('/' :: p.1, p.2))
        else if e == 'b' then (pStr fuel rest2).map (fun p => (Char.ofNat 8 :: p.1, p.2))
        else if e == 'f' then (pStr fuel rest2).map (fun p => (Char.ofNat 12 :: p.1, p.2))
        else if e == 'n' then (pStr fuel rest2).map (fun p => ('\n' :: p.1, p.2))
        else if e == 'r' then (pStr fuel rest2).map (fun p => ('\r' :: p.1, p.2))
        else if e == 't' then (pStr fuel rest2).map (fun p => ('\t' :: p.1, p.2))
        else if e == 'u' then
          match parseHex4 rest2 with
          | some (n, rest3) => (pStr fuel rest3).map (fun p => (Char.ofNat n :: p.1, p.2))
          | none => none
        else none
    else if c.toNat < 32 then none
    else (pStr fuel rest).map (fun p => (c :: p.1, p.2))

def pNumExp (lex : List Char) (cs : List Char) : Option (List Char × List Char) :=
  match cs with
  | c :: rest =>
    if c == 'e' || c == 'E' then
      let sgnRest : List Char × List Char :=
        match rest with
        | s :: r2 => if s == '+' || s == '-' then ([s], r2) else ([], s :: r2)
        | [] => ([], [])
      let ds := sgnRest.2.takeWhile Char.isDigit
      let rest3 := sgnRest.2.dropWhile Char.isDigit
      if ds.isEmpty then none else some (lex ++ [c] ++ sgnRest.1 ++ ds, rest3)
    else some (lex, cs)
  | [] => some (lex, [])

def pNumFrac (lex : List Char) (cs : List Char) : Option (List Char × List Char) :=
  match cs with
  | '.' :: rest =>
    let ds := rest.takeWhile Char.isDigit
    let rest2 := rest.dropWhile Char.isDigit
    if ds.isEmpty then none else pNumExp (lex ++ ['.'] ++ ds) rest2
  | _ => pNumExp lex cs

/-- JSON number lexeme; rejects leading zeros like `01`, as `JSON.parse`
does. -/
def pNum (cs : List Char) : Option (List Char × List Char) :=
  let negCs : List Char × List Char :=
    match cs with
    | '-' :: rest => (['-'], rest)
    | _ => ([], cs)
  match negCs.2 with
  | c :: rest =>
    if c == '0' then
      match rest with
      | d :: _ => if d.isDigit then none else pNumFrac (negCs.1 ++ ['0']) rest
      | [] => some (negCs.1 ++ ['0'], [])
    else if c.isDigit then
      let ds := (c :: rest).takeWhile Char.isDigit
      let rest2 := (c :: rest).dropWhile Char.isDigit
      pNumFrac (negCs.1 ++ ds) rest2
    else none
  | [] => none

mutual

def pVal : Nat → List Char → Option (Json × List Char)
  | 0, _ => none
  | fuel + 1, cs =>
    match skipWs cs with
    | [] => none
    | c :: rest =>
      if c == 'n' then
        match rest with
        | 'u' :: 'l' :: 'l' :: r2 => some (.null, r2)
        | _ => none
      else if c == 't' then
        match rest with
        | 'r' :: 'u' :: 'e' :: r2 => some (.bool true, r2)
        | _ => none
      else if c == 'f' then
        match rest with
        | 'a' :: 'l' :: 's' :: 'e' :: r2 => some (.bool false, r2)
        | _ => none
      else if c == '"' then
        match pStr fuel rest with
        | some (content, r2) => some (.str (String.mk content), r2)
        | none => none
      else if c == '[' then
        match skipWs rest with
        | ']' :: r2 => some (.arr [], r2)
        | cs2 =>
          match pArrItems fuel cs2 with
          | some (vs, r2) => some (.arr vs, r2)
          | none => none
      else if c == braceOpen then
        match skipWs rest with
        | c2 :: r2 =>
          if c2 == braceClose then some (.obj [], r2)
          else
            match pObjItems fuel (c2 :: r2) with
            | some (fs, r3) => some (.obj fs, r3)
            | none => none
        | [] => none
      else
        match pNum (c :: rest) with
        | some (lex, r2) => some (.num (String.mk lex), r2)
        | none => none

def pArrItems : Nat → List Char → Option (List Json × List Char)
  | 0, _ => none
  | fuel + 1, cs =>
    match pVal fuel cs with
    | none => none
    | some (v, r) =>
      match skipWs r with
      | ',' :: r2 =>
        match pArrItems fuel r2 with
        | some (vs, r3) => some (v :: vs, r3)
        | none => none
      | ']' :: r2 => some ([v], r2)
      | _ => none

def pObjItems : Nat → List Char → Option (List (String × Json) × List Char)
  | 0, _ => none
  | fuel + 1, cs =>
    match skipWs cs with
    | '"' :: r1 =>
      match pStr fuel r1 with
      | none => none
      | some (key, r2) =>
        match skipWs r2 with
        | ':' :: r3 =>
          match pVal fuel r3 with
          | none => none
          | some (v, r4) =>
            match skipWs r4 with
            | ',' :: r5 =>
              match pObjItems fuel r5 with
              | some (fs, r6) => some ((String.mk key, v) :: fs, r6)
              | none => none
            | c :: r5 => if c == braceClose then some ([(String.mk key, v)], r5) else none
            | [] => none
        | _ => none
    | _ => none

end

/-- `JSON.parse`: parse a complete JSON document, failing (the JS function
throws) on anything else — in particular on a plain text block. -/
def jparse (s : String) : Option Json :=
  match pVal (s.length + 2) s.data with
  | some (j, rest) => if (skipWs rest).isEmpty then some j else none
  | none => none

/-- Line 186 of the script:
`Array.isArray(payload.scriptText) ? payload.scriptText : JSON.parse(payload.scriptText || '[]')`.
`none` models the exception thrown by `JSON.parse` on non-JSON input. -/
def resolveScript (st : Json) : Option Json :=
  match st with
  | .arr l => some (.arr l)
  | j => jparse (if jsTruthy j then jsToString j else "[]")

/-- Split a character list at a separator character (semantics of
JavaScript `split` and of `String.splitOn` at one-character separators,
written structurally so that the kernel can evaluate it). -/
def splitCh (sep : Char) : List Char → List (List Char)
  | [] => [[]]
  | c :: rest =>
    let r := splitCh sep rest
    if c == sep then [] :: r
    else
      match r with
      | h :: t => (c :: h) :: t
      | [] => [[c]]

def splitStr (sep : Char) (s : String) : List String :=
  (splitCh sep s.data).map String.mk

def endsWithSlash (s : String) : Bool := s.data.getLastD ' ' == '/'

/-- Index of the last `.` in a character list, if any. -/
def lastIdxAux (cs : List Char) (i : Nat) (acc : Option Nat) : Option Nat :=
  match cs with
  | [] => acc
  | c :: rest => lastIdxAux rest (i + 1) (if c == '.' then some i else acc)

def lastDotIdx (cs : List Char) : Option Nat := lastIdxAux cs 0 none

/-- Node's `path.extname` (posix): the part of the last path segment from
its last dot, empty when there is no dot, the dot is the segment's first
character, or the segment is `..`. -/
def extname (p : String) : String :=
  let base := (splitStr '/' p).getLastD ""
  if base == ".." then ""
  else
    match lastDotIdx base.data with
    | none => ""
    | some 0 => ""
    | some k => String.mk (base.data.drop k)

/-- Line 54: `path.extname(url).split('?')[0] || '.mp4'`. -/
def assetExt (url : String) : String :=
  let e := (splitStr '?' (extname url)).headD ""
  if e == "" then ".mp4" else e

def tmpAssetsDir : String := "/tmp/capcut_assets"

/-- The staged local filename for the `i`-th asset URL. -/
def assetPath (i : Nat) (url : String) : String :=
  tmpAssetsDir ++ "/asset_" ++ toString i ++ assetExt url

/-- Posix path normalization over segments (absolute path semantics, so a
surplus `..` at the root is dropped). -/
def normAux (stack : List String) : List String → List String
  | [] => stack
  | s :: rest =>
    if s == "" || s == "." then normAux stack rest
    else if s == ".." then normAux stack.dropLast rest
    else normAux (stack ++ [s]) rest

def joinSegs : List String → String
  | [] => ""
  | [s] => s
  | s :: rest => s ++ "/" ++ joinSegs rest

/-- Node's `path.join('/tmp', name)`: concatenation followed by
normalization, with a trailing slash preserved. -/
def joinTmp (name : String) : String :=
  let core := "/" ++ joinSegs (normAux ["tmp"] (splitStr '/' name))
  if endsWithSlash name && core != "/" then core ++ "/" else core

def chPre : List Char → List Char → Bool
  | [], _ => true
  | _ :: _, [] => false
  | a :: as, b :: bs => a == b && chPre as bs

/-- Whether a path lies under the fixed temporary directory `/tmp`. -/
def underTmp (p : String) : Bool := chPre "/tmp/".data p.data || p == "/tmp"

/-- Whether a name is free of `..` segments. -/
def noDotDot (name : String) : Bool := decide (".." ∉ splitStr '/' name)

/-- The observable actions of one run. -/
inductive Event where
  | log (msg : String)
  | warn (msg : String)
  | error (msg : String)
  | mkdir (path : String)
  | fetchUrl (url : String)
  | writeFile (path : String) (content : String)
  | launchBrowser
  | gotoPage (url : String)
  | click (target : String)
  | typeField (selector : String) (value : String)
  | typeText (arg : Json)
  | uploadFiles (files : List String)
  | closeBrowser
deriving DecidableEq

/-- The trigger payload (`client_payload`); every field may be absent. -/
structure Payload where
  projectName : Option String := none
  template : Option Json := none
  assetUrls : Option (List String) := none
  scriptText : Option Json := none
  sfx : Option Json := none
  outputName : Option String := none

/-- External world: the dispatch event, secrets, the clock, HTTP responses
and which UI elements each query or bounded wait finds. -/
structure Env where
  eventPath : Bool
  clientPayload : Option Payload
  capcutEmail : Option String
  capcutPassword : Option String
  now : Nat
  tmpDirExists : Bool
  fetchOk : String → Bool
  fetchStatus : String → Nat
  fetchBody : String → String
  loginBtn : Bool
  emailField : Bool
  pwField : Bool
  submitBtn : Bool
  loginNavOk : Bool
  newProjectBtn : Bool
  fileInput1 : Bool
  uploadBtn : Bool
  fileInput2 : Bool
  thumbsAppear : Bool
  thumbCount : Nat
  textBtn : Bool
  addTextBtn : Bool
  activeInput : Bool
  exportBtn : Bool
  downloadAppears : Bool
  downloadEl : Bool
  downloadUrl : String

def strTruthy : Option String → Bool
  | none => false
  | some s => s != ""

/-- `payload.outputName || ` backtick-template default. -/
def outputNameOf (env : Env) (payload : Payload) : String :=
  match payload.outputName with
  | some s => if s != "" then s else "capcut_export_" ++ toString env.now ++ ".mp4"
  | none => "capcut_export_" ++ toString env.now ++ ".mp4"

def mkdirEvents (env : Env) : List Event :=
  if env.tmpDirExists then [] else [Event.mkdir tmpAssetsDir]

/-- The asset download loop (lines 51-64): fetch each URL in order; on the
first non-success response log the error and stop with no local file list
(the script calls `process.exit(1)` there). -/
def downloadGo (env : Env) : Nat → List String → List Event × Option (List String)
  | _, [] => ([], some [])
  | i, url :: rest =>
    if env.fetchOk url then
      let fn := assetPath i url
      let next := downloadGo env (i + 1) rest
      (Event.fetchUrl url :: Event.writeFile fn (env.fetchBody url) ::
         Event.log ("Saved " ++ fn) :: next.1,
       next.2.map (fun files => fn :: files))
    else
      ([Event.fetchUrl url,
        Event.error ("Failed to download asset " ++ url ++ " " ++
          toString (env.fetchStatus url))], none)

def bootEvents : List Event :=
  [Event.launchBrowser, Event.log "Navigating to CapCut...",
   Event.gotoPage "https://www.capcut.com/tools/editor"]

def emailSel : String := "input[type=\"email\"], input[name=\"email\"]"

def pwSel : String := "input[type=\"password\"], input[name=\"password\"]"

/-- Step 2, both try blocks: the login button (best effort) and the email
login attempt; every failure is logged and swallowed. -/
def loginEvents (env : Env) : List Event :=
  (if env.loginBtn then [Event.click "login"]
   else [Event.warn "Login button not found; continuing if already logged in."])
  ++
  (if env.emailField && strTruthy env.capcutEmail && strTruthy env.capcutPassword then
    Event.log "Performing email login..." ::
    Event.typeField emailSel (env.capcutEmail.getD "") ::
    (if env.pwField then
      Event.typeField pwSel (env.capcutPassword.getD "") ::
      ((if env.submitBtn then [Event.click "submit"] else []) ++
       (if env.loginNavOk then [Event.log "Login done."]
        else [Event.warn
          "Login attempt failed; continuing — ensure session is active or update selectors."]))
     else [Event.warn
       "Login attempt failed; continuing — ensure session is active or update selectors."])
   else
     [Event.log
       "Email login not available or credentials missing; ensure account is logged in or provide cookies."])

/-- Step 3: create a new project, best effort. -/
def projectEvents (env : Env) : List Event :=
  if env.newProjectBtn then [Event.click "newProject"]
  else [Event.log "New Project button not found by XPath; try alternative flows."]

def uploadFailMsg : String :=
  "Upload step failed: Unable to find file input element on page. Inspect CapCut and update script selector."

/-- Step 4: look for `input[type=file]`, falling back to clicking an
Upload/Import trigger; attach all staged files, or fail. -/
def uploadEvents (env : Env) (localFiles : List String) : List Event :=
  (if env.fileInput1 then [] else if env.uploadBtn then [Event.click "upload"] else [])
  ++
  (if env.fileInput2 then
    [Event.uploadFiles localFiles, Event.log "Uploaded local files to CapCut UI."]
   else [Event.error uploadFailMsg])

def captionFailWarn : String :=
  "Caption insertion partially failed. You may need to update selectors."

/-- One iteration of the caption loop (lines 188-204).  When the active
input is found, the script evaluates `scriptObj[i].text` as the typing
argument: on a `null` entry that property access throws a TypeError
before `keyboard.type` is invoked, and the per-caption catch at line 201
logs a warning instead — the Add-text click has already happened but no
text is injected for that entry. -/
def captionIter (env : Env) (scriptObj : Json) (i : Nat) : List Event :=
  if env.addTextBtn then
    Event.click "addText" ::
      (if env.activeInput then
        match jsGetProp (jsIndex scriptObj i) "text" with
        | none => [Event.warn ("Add text failed for caption " ++ toString i)]
        | some _ => [Event.typeText (captionArg (jsIndex scriptObj i))]
      else [])
  else []

def captionLoopGo (env : Env) (scriptObj : Json) : Nat → Nat → List Event
  | _, 0 => []
  | i, rem + 1 => captionIter env scriptObj i ++ captionLoopGo env scriptObj (i + 1) rem

def captionLoop (env : Env) (scriptObj : Json) : List Event :=
  captionLoopGo env scriptObj 0 (captionIters scriptObj)

/-- The caption try block (lines 178-207): open the text panel, resolve
the script entries, run the insertion loop; a `JSON.parse` failure is
caught and only warned about. -/
def captionBlock (env : Env) (st : Json) : List Event :=
  (if env.textBtn then [Event.click "textPanel"] else [])
  ++
  (match resolveScript st with
   | none => [Event.warn captionFailWarn]
   | some scriptObj => captionLoop env scriptObj)

/-- The caption sub-step guard `if (payload.scriptText)`: run the caption
block only when the field is present and truthy. -/
def captionPhase (env : Env) (st : Option Json) : List Event :=
  match st with
  | some j => if jsTruthy j then captionBlock env j else []
  | none => []

/-- Step 5: wait for thumbnails (a timeout aborts the whole try block,
captions included), click up to 12 of them, then insert captions when
`payload.scriptText` is truthy. -/
def timelineStep (env : Env) (st : Option Json) : List Event :=
  if env.thumbsAppear then
    Event.log ("Found thumbnails: " ++ toString env.thumbCount) ::
      (List.replicate (min env.thumbCount 12) (Event.click "thumb")
       ++ captionPhase env st)
  else [Event.warn "Timeline population step had issues: waiting for selector failed"]

/-- Step 7: click Export, best effort. -/
def exportEvents (env : Env) : List Event :=
  if env.exportBtn then [Event.click "export", Event.log "Clicked Export."]
  else [Event.warn "Export button not found; you may need to manually export or update selector."]

def pollFailWarn : String :=
  "Export/download polling failed (timeout or selector mismatch)."

/-- Step 8: wait up to 120s for the download element; on success fetch the
artifact and write it to `path.join('/tmp', OUTPUT_NAME)`; on timeout or a
missing element only warn. -/
def pollEvents (env : Env) (outName : String) : List Event :=
  if env.downloadAppears then
    if env.downloadEl then
      Event.log ("Export ready at " ++ env.downloadUrl) ::
      Event.fetchUrl env.downloadUrl ::
      Event.writeFile (joinTmp outName) (env.fetchBody env.downloadUrl) ::
      Event.log ("Saved output to " ++ joinTmp outName) ::
      [Event.log "Done."]
    else [Event.warn "Download button found but could not extract URL."]
  else [Event.warn pollFailWarn]

def missingPayloadMsg : String := "Payload missing required fields. Example: assetUrls[]"

structure RunResult where
  events : List Event
  exitCode : Nat
deriving DecidableEq

/-- The whole run for a given payload: the two fatal checkpoints (missing
`assetUrls`, a failed asset download, an unresolved upload control) exit
with 1; every other path runs to the final `process.exit(0)`. -/
def runPayload (env : Env) (payload : Payload) : RunResult :=
  match payload.assetUrls with
  | none => ⟨[Event.error missingPayloadMsg], 1⟩
  | some urls =>
    let dl := downloadGo env 0 urls
    let pre := mkdirEvents env ++ Event.log "Downloading assets..." :: dl.1
    match dl.2 with
    | none => ⟨pre, 1⟩
    | some localFiles =>
      let head := pre ++ bootEvents ++ loginEvents env ++ projectEvents env ++
        uploadEvents env localFiles
      if env.fileInput2 then
        ⟨head ++ timelineStep env payload.scriptText ++ exportEvents env ++
           pollEvents env (outputNameOf env payload) ++ [Event.closeBrowser], 0⟩
      else ⟨head ++ [Event.closeBrowser], 1⟩

def emptyPayload : Payload := {}

/-- Process entry: require `GITHUB_EVENT_PATH`, default a missing
`client_payload` to the empty object, then run. -/
def run (env : Env) : RunResult :=
  if env.eventPath then runPayload env (env.clientPayload.getD emptyPayload)
  else ⟨[Event.error "GITHUB_EVENT_PATH env var missing. Are you running in GH Actions?"], 1⟩

def writeOf : Event → Option (String × String)
  | .writeFile p c => some (p, c)
  | _ => none

def fetchOf : Event → Option String
  | .fetchUrl u => some u
  | _ => none

def typedOf : Event → Option Json
  | .typeText j => some j
  | _ => none

/-- Number of caption texts actually injected. -/
def typeCount (l : List Event) : Nat := (l.filterMap typedOf).length

/-- Number of clicks of the Add-text control. -/
def addTextClicks (l : List Event) : Nat :=
  (l.filter (fun e => e == Event.click "addText")).length

/-- A representative well-formed payload. -/
def payloadBase : Payload :=
  { projectName := some "TV-20251021-001"
    template := some (.str "hybrid_action_meme_v2")
    assetUrls := some ["http://files.example/a.mp4"]
    scriptText := none
    sfx := some (.arr [.str "boing.mp3"])
    outputName := some "out.mp4" }

/-- A fully cooperative environment: every element is found, every fetch
succeeds. -/
def envAll : Env :=
  { eventPath := true
    clientPayload := some payloadBase
    capcutEmail := some "user@example.com"
    capcutPassword := some "secret"
    now := 1700000000000
    tmpDirExists := true
    fetchOk := fun _ => true
    fetchStatus := fun _ => 200
    fetchBody := fun _ => "bytes"
    loginBtn := true
    emailField := true
    pwField := true
    submitBtn := true
    loginNavOk := true
    newProjectBtn := true
    fileInput1 := true
    uploadBtn := true
    fileInput2 := true
    thumbsAppear := true
    thumbCount := 1
    textBtn := true
    addTextBtn := true
    activeInput := true
    exportBtn := true
    downloadAppears := true
    downloadEl := true
    downloadUrl := "http://dl.example/out.mp4" }

/-- Local file paths collected by the download loop from index `i` on,
assuming every fetch succeeds. -/
def localPathsFrom (i : Nat) : List String → List String
  | [] => []
  | url :: rest => assetPath i url :: localPathsFrom (i + 1) rest

/-- Download-loop events from index `i` on, assuming every fetch
succeeds. -/
def dlEventsFrom (env : Env) (i : Nat) : List String → List Event
  | [] => []
  | url :: rest =>
    Event.fetchUrl url :: Event.writeFile (assetPath i url) (env.fetchBody url) ::
      Event.log ("Saved " ++ assetPath i url) :: dlEventsFrom env (i + 1) rest

/-- The ordered write actions of an all-successful download loop. -/
def dlWritesFrom (env : Env) (i : Nat) : List String → List (String × String)
  | [] => []
  | url :: rest => (assetPath i url, env.fetchBody url) :: dlWritesFrom env (i + 1) rest

/-- Classifier for events of the best-effort UI steps that precede the
timeline step: none of them type caption text, touch the filesystem or
the network, launch the browser, upload files, or click the thumbnail,
Add-text or Export controls. -/
def tame (e : Event) : Bool :=
  match e with
  | .log _ => true
  | .warn _ => true
  | .error _ => true
  | .mkdir _ => true
  | .typeField _ _ => true
  | .click t => !(t == "thumb" || t == "export" || t == "addText")
  | _ => false

/-- Classifier for download-loop events. -/
def dlTame (e : Event) : Bool :=
  match e with
  | .log _ => true
  | .error _ => true
  | .fetchUrl _ => true
  | .writeFile _ _ => true
  | _ => false

/-- Classifier for timeline/caption/export events: UI interaction only,
no filesystem or network effects. -/
def tlTame (e : Event) : Bool :=
  match e with
  | .log _ => true
  | .warn _ => true
  | .click _ => true
  | .typeText _ => true
  | _ => false

def payloadEmptyAssets : Payload := { payloadBase with assetUrls := some [] }

def envEmptyAssets : Env := { envAll with clientPayload := some payloadEmptyAssets }

def payloadNoAssets : Payload := { payloadBase with assetUrls := none }

def envNoAssets : Env := { envAll with clientPayload := some payloadNoAssets }

def payloadPlainScript : Payload :=
  { payloadBase with scriptText := some (.str "Hello world") }

def envPlainScript : Env := { envAll with clientPayload := some payloadPlainScript }

def payloadEscape : Payload := { payloadBase with outputName := some "../escape.mp4" }

def envEscape : Env := { envAll with clientPayload := some payloadEscape }

def hookScript : String := "[\x7b\"text\":\"Hook\"\x7d]"

def payloadHookStr : Payload := { payloadBase with scriptText := some (.str hookScript) }

def envHookStr : Env := { envAll with clientPayload := some payloadHookStr }

def envFetchFail : Env := { envAll with fetchOk := fun _ => false }

def envNoFileInput : Env := { envAll with fileInput1 := false, fileInput2 := false }

def envNoDownload : Env := { envAll with downloadAppears := false }

def payloadArr : Payload :=
  { payloadBase with scriptText := some (.arr
      [.obj [("text", .str "Hook")], .str "plain", .obj [("text", .str "")]]) }

def envArr : Env := { envAll with clientPayload := some payloadArr }

def payloadNullEntry : Payload :=
  { payloadBase with scriptText := some (.arr
      [Json.null, .obj [("text", .str "Hook")]]) }

def envNullEntry : Env := { envAll with clientPayload := some payloadNullEntry }

def isUpload : Event → Bool
  | .uploadFiles _ => true
  | _ => false

/-- Number of batch file-attach actions. -/
def uploadCount (l : List Event) : Nat := (l.filter isUpload).length

/-- Events that are none of: a caption-text injection, a file attach, a
thumbnail click, an Export click, an Add-text click.  A trace consisting
only of quiet events shows that the timeline, caption, export and
artifact steps never acted. -/
def quiet (e : Event) : Bool :=
  (typedOf e).isNone && !isUpload e && !(e == Event.click "thumb") &&
    !(e == Event.click "export") && !(e == Event.click "addText")

/-! ### General lemmas about the embedding -/

theorem strData_append (a b : String) : (a ++ b).data = a.data ++ b.data := rfl

theorem chPre_append_self (l r : List Char) : chPre l (l ++ r) = true := by
  induction l with
  | nil => rfl
  | cons a as ih => simp [chPre, ih]

theorem tame_spec {e : Event} (h : tame e = true) :
    typedOf e = none ∧ writeOf e = none ∧ fetchOf e = none ∧
      e ≠ Event.launchBrowser ∧ (∀ fs, e ≠ Event.uploadFiles fs) ∧
      e ≠ Event.click "thumb" ∧ e ≠ Event.click "export" ∧
      e ≠ Event.click "addText" := by
  cases e <;> simp_all [tame, typedOf, writeOf, fetchOf]

theorem dlTame_spec {e : Event} (h : dlTame e = true) :
    typedOf e = none ∧ e ≠ Event.launchBrowser ∧
      (∀ t, e ≠ Event.click t) ∧ (∀ fs, e ≠ Event.uploadFiles fs) := by
  cases e <;> simp_all [dlTame, typedOf]

theorem tlTame_spec {e : Event} (h : tlTame e = true) :
    writeOf e = none ∧ fetchOf e = none ∧ e ≠ Event.launchBrowser ∧
      (∀ fs, e ≠ Event.uploadFiles fs) := by
  cases e <;> simp_all [tlTame, writeOf, fetchOf]

theorem mkdirEvents_all_tame (env : Env) : (mkdirEvents env).all tame = true := by
  unfold mkdirEvents
  split <;> simp [tame]

theorem loginEvents_all_tame (env : Env) : (loginEvents env).all tame = true := by
  unfold loginEvents
  repeat' split
  all_goals simp [tame]

theorem projectEvents_all_tame (env : Env) : (projectEvents env).all tame = true := by
  unfold projectEvents
  split <;> simp [tame]

theorem uploadEvents_fail_all_tame (env : Env) (files : List String)
    (h : env.fileInput2 = false) : (uploadEvents env files).all tame = true := by
  unfold uploadEvents
  rw [h]
  repeat' split
  all_goals simp_all [tame]

theorem downloadGo_ok (env : Env) (urls : List String)
    (hok : ∀ u ∈ urls, env.fetchOk u = true) :
    ∀ i, downloadGo env i urls = (dlEventsFrom env i urls, some (localPathsFrom i urls)) := by
  induction urls with
  | nil => intro i; rfl
  | cons u rest ih =>
    intro i
    have hu : env.fetchOk u = true := hok u (by simp)
    have hr : ∀ v ∈ rest, env.fetchOk v = true := fun v hv => hok v (by simp [hv])
    simp [downloadGo, dlEventsFrom, localPathsFrom, hu, ih hr]

theorem dlEventsFrom_all_dlTame (env : Env) (urls : List String) :
    ∀ i, (dlEventsFrom env i urls).all dlTame = true := by
  induction urls with
  | nil => intro i; rfl
  | cons u rest ih => intro i; simp [dlEventsFrom, dlTame, ih]

theorem dlEventsFrom_writes (env : Env) (urls : List String) :
    ∀ i, (dlEventsFrom env i urls).filterMap writeOf = dlWritesFrom env i urls := by
  induction urls with
  | nil => intro i; rfl
  | cons u rest ih => intro i; simp [dlEventsFrom, dlWritesFrom, writeOf, ih]

theorem dlEventsFrom_fetches (env : Env) (urls : List String) :
    ∀ i, (dlEventsFrom env i urls).filterMap fetchOf = urls := by
  induction urls with
  | nil => intro i; rfl
  | cons u rest ih => intro i; simp [dlEventsFrom, fetchOf, ih]

theorem dlWritesFrom_length (env : Env) (urls : List String) :
    ∀ i, (dlWritesFrom env i urls).length = urls.length := by
  induction urls with
  | nil => intro i; rfl
  | cons u rest ih => intro i; simp [dlWritesFrom, ih]

theorem localPathsFrom_length (urls : List String) :
    ∀ i, (localPathsFrom i urls).length = urls.length := by
  induction urls with
  | nil => intro i; rfl
  | cons u rest ih => intro i; simp [localPathsFrom, ih]

theorem typeCount_eq_zero {l : List Event} (h : ∀ e ∈ l, typedOf e = none) :
    typeCount l = 0 := by
  unfold typeCount
  rw [List.filterMap_eq_nil_iff.mpr h]
  rfl

/-! ### C9: `sfx` and `template` are never read -/

theorem runPayload_fields (env : Env) (p q : Payload)
    (h1 : p.assetUrls = q.assetUrls) (h2 : p.scriptText = q.scriptText)
    (h3 : p.outputName = q.outputName) :
    runPayload env p = runPayload env q := by
  unfold runPayload outputNameOf
  rw [h1, h2, h3]

/-- C9: the `sfx` and `template` payload fields have no effect: in any
environment, two runs whose payloads differ only in those fields produce
the identical event trace and exit code, because neither field is ever
read. -/
theorem c9_sfx_template_unused (env : Env) (p : Payload)
    (s1 s2 t1 t2 : Option Json) :
    runPayload env { p with sfx := s1, template := t1 } =
      runPayload env { p with sfx := s2, template := t2 } :=
  runPayload_fields env _ _ rfl rfl rfl

/-! ### C1: validation of `assetUrls` -/

/-- C1 counterexample: with `assetUrls` present but an empty list, the
validation `!payload.assetUrls` passes (an empty array is truthy in
JavaScript), the browser is launched, and the run exits with status 0 —
refuting the claim that an empty list exits with status 1 before any
browser session. -/
theorem c1_empty_assets_launches :
    payloadEmptyAssets.assetUrls = some [] ∧
      (run envEmptyAssets).exitCode = 0 ∧
      Event.launchBrowser ∈ (run envEmptyAssets).events := by decide

/-- C1 (amended): when the `assetUrls` field is absent from the effective
payload the run exits with status 1 before any browser launch; a present
but empty list instead passes validation. -/
theorem c1_missing_assets_fatal (env : Env)
    (h : (env.clientPayload.getD emptyPayload).assetUrls = none) :
    (run env).exitCode = 1 ∧ Event.launchBrowser ∉ (run env).events := by
  cases hep : env.eventPath with
  | false => simp [run, hep]
  | true => simp [run, hep, runPayload, h]

/-- C1 witness: the amended statement at a concrete payload whose
`assetUrls` field is absent. -/
theorem c1_missing_assets_fatal_witness :
    (run envNoAssets).exitCode = 1 ∧
      Event.launchBrowser ∉ (run envNoAssets).events :=
  c1_missing_assets_fatal envNoAssets (by decide)

/-! ### C3: artifact output path -/

/-- C3 counterexample: with `outputName` set to `../escape.mp4` the final
artifact is written to `/escape.mp4`, which does not lie under the fixed
temporary directory `/tmp` — refuting the claim that the written path
always lies under `/tmp` regardless of the `outputName` value. -/
theorem c3_output_escapes_tmp :
    payloadEscape.outputName = some "../escape.mp4" ∧
      Event.writeFile "/escape.mp4" "bytes" ∈ (run envEscape).events ∧
      underTmp "/escape.mp4" = false := by decide

theorem normAux_no_dotdot (segs : List String) :
    ∀ stack, ".." ∉ segs →
      normAux stack segs = stack ++ segs.filter (fun s => !(s == "") && !(s == ".")) := by
  induction segs with
  | nil => intro stack _; simp [normAux]
  | cons s rest ih =>
    intro stack h
    have hs : s ≠ ".." := fun hh => h (by simp [hh])
    have hr : ".." ∉ rest := fun hh => h (by simp [hh])
    have hs2 : (s == "..") = false := beq_eq_false_iff_ne.mpr hs
    simp only [normAux]
    by_cases h0 : s = ""
    · subst h0; simp [ih _ hr]
    · by_cases h1 : s = "."
      · subst h1; simp [ih _ hr]
      · have e0 : (s == "") = false := beq_eq_false_iff_ne.mpr h0
        have e1 : (s == ".") = false := beq_eq_false_iff_ne.mpr h1
        simp [e0, e1, hs2, ih _ hr]

theorem underTmp_slash_append (t : String) : underTmp ("/tmp/" ++ t) = true := by
  unfold underTmp
  rw [Bool.or_eq_true]
  left
  have hd : ("/tmp/" ++ t).data = "/tmp/".data ++ t.data := rfl
  rw [hd]
  exact chPre_append_self _ _

theorem joinTmp_under (name : String) (h : noDotDot name = true) :
    underTmp (joinTmp name) = true := by
  have hmem : ".." ∉ splitStr '/' name := of_decide_eq_true h
  unfold joinTmp
  rw [normAux_no_dotdot _ _ hmem]
  cases hfs : (splitStr '/' name).filter (fun s => !(s == "") && !(s == ".")) with
  | nil =>
    cases hsl : endsWithSlash name <;> simp [joinSegs] <;> decide
  | cons f rest =>
    have hcore : "/" ++ joinSegs ("tmp" :: f :: rest) = "/tmp/" ++ joinSegs (f :: rest) := by
      show "/" ++ ("tmp" ++ "/" ++ joinSegs (f :: rest)) = _
      rw [← String.append_assoc, ← String.append_assoc]
      rfl
    show underTmp (if endsWithSlash name &&
        ("/" ++ joinSegs ("tmp" :: f :: rest)) != "/" then
          ("/" ++ joinSegs ("tmp" :: f :: rest)) ++ "/"
        else "/" ++ joinSegs ("tmp" :: f :: rest)) = true
    rw [hcore]
    cases hif : endsWithSlash name && ("/tmp/" ++ joinSegs (f :: rest)) != "/"
    · rw [if_neg (by simp)]
      exact underTmp_slash_append _
    · rw [if_pos rfl]
      rw [String.append_assoc]
      exact underTmp_slash_append _

/-- C3 (amended): every run that retrieves the artifact writes it at
`path.join('/tmp', OUTPUT_NAME)`, where OUTPUT_NAME is `payload.outputName`
when that is a nonempty string and a timestamp-derived default name
otherwise; the written path lies under `/tmp` whenever that name has no
`..` segments (an `outputName` with `..` segments can escape `/tmp`). -/
theorem c3_artifact_written_at_join_tmp (env : Env) (p : Payload)
    (urls : List String)
    (hep : env.eventPath = true)
    (hcp : env.clientPayload = some p)
    (hau : p.assetUrls = some urls)
    (hok : ∀ u ∈ urls, env.fetchOk u = true)
    (hfi : env.fileInput2 = true)
    (hda : env.downloadAppears = true)
    (hde : env.downloadEl = true) :
    Event.writeFile (joinTmp (outputNameOf env p)) (env.fetchBody env.downloadUrl)
        ∈ (run env).events ∧
      (noDotDot (outputNameOf env p) = true →
        underTmp (joinTmp (outputNameOf env p)) = true) := by
  constructor
  · have hdl := downloadGo_ok env urls hok 0
    simp [run, hep, hcp, runPayload, hau, hdl, hfi, pollEvents, hda, hde,
      List.mem_append]
  · intro hnd
    exact joinTmp_under _ hnd

/-- C3 witness: the amended statement at the fully cooperative
environment with `outputName` equal to `out.mp4`, whose lack of `..`
segments puts the artifact under `/tmp`. -/
theorem c3_artifact_written_at_join_tmp_witness :
    Event.writeFile (joinTmp (outputNameOf envAll payloadBase))
        (envAll.fetchBody envAll.downloadUrl) ∈ (run envAll).events ∧
      underTmp (joinTmp (outputNameOf envAll payloadBase)) = true :=
  ⟨(c3_artifact_written_at_join_tmp envAll payloadBase
      ["http://files.example/a.mp4"] rfl rfl rfl (by decide) rfl rfl rfl).1,
    (c3_artifact_written_at_join_tmp envAll payloadBase
      ["http://files.example/a.mp4"] rfl rfl rfl (by decide) rfl rfl rfl).2
      (by decide)⟩

/-! ### C5: fail-fast on a failed asset fetch -/

theorem mkdirEvents_fetchOf (env : Env) :
    (mkdirEvents env).filterMap fetchOf = [] := by
  unfold mkdirEvents
  split <;> simp [fetchOf]

theorem mkdirEvents_no_launch (env : Env) :
    Event.launchBrowser ∉ mkdirEvents env := by
  unfold mkdirEvents
  split <;> simp

theorem dlEventsFrom_no_launch (env : Env) (urls : List String) (i : Nat) :
    Event.launchBrowser ∉ dlEventsFrom env i urls := by
  intro hmem
  have hall := dlEventsFrom_all_dlTame env urls i
  rw [List.all_eq_true] at hall
  exact (dlTame_spec (hall _ hmem)).2.1 rfl

theorem downloadGo_fail (env : Env) (pre : List String) (u : String)
    (post : List String)
    (hpre : ∀ v ∈ pre, env.fetchOk v = true) (hu : env.fetchOk u = false) :
    ∀ i, downloadGo env i (pre ++ u :: post) =
      (dlEventsFrom env i pre ++
        [Event.fetchUrl u,
         Event.error ("Failed to download asset " ++ u ++ " " ++
           toString (env.fetchStatus u))], none) := by
  induction pre with
  | nil => intro i; simp [downloadGo, hu, dlEventsFrom]
  | cons v rest ih =>
    intro i
    have hv : env.fetchOk v = true := hpre v (by simp)
    have hr : ∀ w ∈ rest, env.fetchOk w = true := fun w hw => hpre w (by simp [hw])
    simp [downloadGo, hv, dlEventsFrom, ih hr]

/-- C5: when every asset URL before position `j` fetches successfully and
the one at position `j` returns a non-success response, the run exits with
status 1 immediately: the fetched URLs are exactly the first `j + 1` ones
(no later URL is fetched) and no browser session is ever launched. -/
theorem c5_fetch_failure_fail_fast (env : Env) (p : Payload)
    (pre post : List String) (u : String)
    (hep : env.eventPath = true)
    (hcp : env.clientPayload = some p)
    (hau : p.assetUrls = some (pre ++ u :: post))
    (hpre : ∀ v ∈ pre, env.fetchOk v = true)
    (hu : env.fetchOk u = false) :
    (run env).exitCode = 1 ∧
      (run env).events.filterMap fetchOf = pre ++ [u] ∧
      Event.launchBrowser ∉ (run env).events := by
  have hdl := downloadGo_fail env pre u post hpre hu 0
  have hrun : run env = ⟨mkdirEvents env ++ Event.log "Downloading assets..." ::
      (dlEventsFrom env 0 pre ++
        [Event.fetchUrl u,
         Event.error ("Failed to download asset " ++ u ++ " " ++
           toString (env.fetchStatus u))]), 1⟩ := by
    simp [run, hep, hcp, runPayload, hau, hdl]
  rw [hrun]
  refine ⟨rfl, ?_, ?_⟩
  · simp [List.filterMap_append, mkdirEvents_fetchOf, fetchOf, dlEventsFrom_fetches]
  · simp [List.mem_append, mkdirEvents_no_launch, dlEventsFrom_no_launch]

/-- C5 witness: a concrete run whose single asset URL fails to download:
exit code 1, exactly that one fetch, and no browser launch. -/
theorem c5_fetch_failure_fail_fast_witness :
    (run envFetchFail).exitCode = 1 ∧
      (run envFetchFail).events.filterMap fetchOf =
        [] ++ ["http://files.example/a.mp4"] ∧
      Event.launchBrowser ∉ (run envFetchFail).events :=
  c5_fetch_failure_fail_fast envFetchFail payloadBase [] []
    "http://files.example/a.mp4" rfl rfl rfl (by decide) rfl

/-! ### C6: one local file per URL, in order, before upload -/

theorem run_ok_shape (env : Env) (p : Payload) (urls : List String)
    (hep : env.eventPath = true) (hcp : env.clientPayload = some p)
    (hau : p.assetUrls = some urls) (hok : ∀ u ∈ urls, env.fetchOk u = true)
    (hfi : env.fileInput2 = true) :
    run env = ⟨(mkdirEvents env ++ Event.log "Downloading assets..." ::
        dlEventsFrom env 0 urls) ++ bootEvents ++ loginEvents env ++
        projectEvents env ++ uploadEvents env (localPathsFrom 0 urls) ++
        timelineStep env p.scriptText ++ exportEvents env ++
        pollEvents env (outputNameOf env p) ++ [Event.closeBrowser], 0⟩ := by
  have hdl := downloadGo_ok env urls hok 0
  simp [run, hep, hcp, runPayload, hau, hdl, hfi]

theorem takeWhile_append_of_all {p : Event → Bool} {A B : List Event}
    (hA : ∀ e ∈ A, p e = true) :
    (A ++ B).takeWhile p = A ++ B.takeWhile p := by
  induction A with
  | nil => rfl
  | cons a as ih =>
    have ha := hA a (by simp)
    simp [List.takeWhile_cons, ha, ih (fun e he => hA e (by simp [he]))]

theorem mkdirEvents_writeOf (env : Env) :
    (mkdirEvents env).filterMap writeOf = [] := by
  unfold mkdirEvents
  split <;> simp [writeOf]

theorem mkdirEvents_not_launch_pred (env : Env) :
    ∀ e ∈ mkdirEvents env, (!(e == Event.launchBrowser)) = true := by
  intro e he
  have := mkdirEvents_no_launch env
  simp only [Bool.not_eq_eq_eq_not, Bool.not_true, beq_eq_false_iff_ne]
  exact fun hh => this (hh ▸ he)

theorem dlEventsFrom_not_launch_pred (env : Env) (urls : List String) (i : Nat) :
    ∀ e ∈ dlEventsFrom env i urls, (!(e == Event.launchBrowser)) = true := by
  intro e he
  have := dlEventsFrom_no_launch env urls i
  simp only [Bool.not_eq_eq_eq_not, Bool.not_true, beq_eq_false_iff_ne]
  exact fun hh => this (hh ▸ he)

theorem run_ok_events (env : Env) (p : Payload) (urls : List String)
    (hep : env.eventPath = true) (hcp : env.clientPayload = some p)
    (hau : p.assetUrls = some urls) (hok : ∀ u ∈ urls, env.fetchOk u = true)
    (hfi : env.fileInput2 = true) :
    (run env).events = (mkdirEvents env ++ Event.log "Downloading assets..." ::
        dlEventsFrom env 0 urls) ++ bootEvents ++ loginEvents env ++
        projectEvents env ++ uploadEvents env (localPathsFrom 0 urls) ++
        timelineStep env p.scriptText ++ exportEvents env ++
        pollEvents env (outputNameOf env p) ++ [Event.closeBrowser] := by
  rw [run_ok_shape env p urls hep hcp hau hok hfi]

/-- C6: given N asset URLs that all fetch successfully, the part of the
run before the browser launch writes exactly N local files — one per URL,
the i-th write being the staged file for the i-th URL with that URL's
response body, in input order — and the collected local-path list, also
order-preserving, is exactly what the upload step later attaches. -/
theorem c6_one_file_per_url (env : Env) (p : Payload) (urls : List String)
    (hep : env.eventPath = true) (hcp : env.clientPayload = some p)
    (hau : p.assetUrls = some urls) (hok : ∀ u ∈ urls, env.fetchOk u = true)
    (hfi : env.fileInput2 = true) :
    ((run env).events.takeWhile
        (fun e => !(e == Event.launchBrowser))).filterMap writeOf =
      dlWritesFrom env 0 urls ∧
    (dlWritesFrom env 0 urls).length = urls.length ∧
    Event.uploadFiles (localPathsFrom 0 urls) ∈ (run env).events ∧
    (localPathsFrom 0 urls).length = urls.length := by
  rw [run_ok_events env p urls hep hcp hau hok hfi]
  refine ⟨?_, dlWritesFrom_length env urls 0, ?_, localPathsFrom_length urls 0⟩
  · simp only [List.append_assoc, List.cons_append]
    rw [takeWhile_append_of_all (mkdirEvents_not_launch_pred env)]
    rw [List.takeWhile_cons]
    simp only [show (!(Event.log "Downloading assets..." ==
      Event.launchBrowser)) = true from rfl, if_true]
    rw [takeWhile_append_of_all (dlEventsFrom_not_launch_pred env urls 0)]
    simp only [bootEvents, List.cons_append, List.takeWhile_cons]
    simp only [show (!(Event.launchBrowser == Event.launchBrowser)) = false from rfl,
      if_false]
    simp [List.filterMap_append, mkdirEvents_writeOf, writeOf,
      dlEventsFrom_writes]
  · simp [List.mem_append, uploadEvents, hfi]

/-- C6 witness: the concrete all-success run with one asset URL. -/
theorem c6_one_file_per_url_witness :
    ((run envAll).events.takeWhile
        (fun e => !(e == Event.launchBrowser))).filterMap writeOf =
      dlWritesFrom envAll 0 ["http://files.example/a.mp4"] ∧
    (dlWritesFrom envAll 0 ["http://files.example/a.mp4"]).length =
      (["http://files.example/a.mp4"] : List String).length ∧
    Event.uploadFiles (localPathsFrom 0 ["http://files.example/a.mp4"]) ∈
      (run envAll).events ∧
    (localPathsFrom 0 ["http://files.example/a.mp4"]).length =
      (["http://files.example/a.mp4"] : List String).length :=
  c6_one_file_per_url envAll payloadBase ["http://files.example/a.mp4"]
    rfl rfl rfl (by decide) rfl

/-! ### C7: unresolved upload control is fatal -/

theorem quiet_spec {e : Event} (h : quiet e = true) :
    typedOf e = none ∧ isUpload e = false ∧ e ≠ Event.click "thumb" ∧
      e ≠ Event.click "export" ∧ e ≠ Event.click "addText" := by
  cases e <;> simp_all [quiet, typedOf, isUpload]

theorem all_quiet_of_all_tame {l : List Event} (h : l.all tame = true) :
    l.all quiet = true := by
  rw [List.all_eq_true] at h ⊢
  intro e he
  have := tame_spec (h e he)
  cases e <;> simp_all [quiet, typedOf, isUpload, tame]

theorem all_quiet_of_all_dlTame {l : List Event} (h : l.all dlTame = true) :
    l.all quiet = true := by
  rw [List.all_eq_true] at h ⊢
  intro e he
  have := h e he
  cases e <;> simp_all [quiet, typedOf, isUpload, dlTame]

theorem boot_all_quiet : bootEvents.all quiet = true := by decide

theorem boot_writes : bootEvents.filterMap writeOf = [] := by decide

theorem boot_fetch : bootEvents.filterMap fetchOf = [] := by decide

theorem typeCount_zero_of_all_quiet {l : List Event} (h : l.all quiet = true) :
    typeCount l = 0 :=
  typeCount_eq_zero (fun e he => (quiet_spec (List.all_eq_true.mp h e he)).1)

theorem uploadCount_zero_of_all_quiet {l : List Event} (h : l.all quiet = true) :
    uploadCount l = 0 := by
  unfold uploadCount
  have : l.filter isUpload = [] := by
    rw [List.filter_eq_nil_iff]
    intro e he
    have := (quiet_spec (List.all_eq_true.mp h e he)).2.1
    simp [this]
  rw [this]
  rfl

theorem click_not_mem_of_all_quiet {l : List Event} (h : l.all quiet = true)
    (t : String) (ht : t = "thumb" ∨ t = "export" ∨ t = "addText") :
    Event.click t ∉ l := by
  intro hmem
  have hs := quiet_spec (List.all_eq_true.mp h _ hmem)
  rcases ht with ht | ht | ht <;> subst ht
  · exact hs.2.2.1 rfl
  · exact hs.2.2.2.1 rfl
  · exact hs.2.2.2.2 rfl

theorem writes_nil_of_all_tame {l : List Event} (h : l.all tame = true) :
    l.filterMap writeOf = [] :=
  List.filterMap_eq_nil_iff.mpr
    (fun e he => (tame_spec (List.all_eq_true.mp h e he)).2.1)

theorem fetch_nil_of_all_tame {l : List Event} (h : l.all tame = true) :
    l.filterMap fetchOf = [] :=
  List.filterMap_eq_nil_iff.mpr
    (fun e he => (tame_spec (List.all_eq_true.mp h e he)).2.2.1)

theorem run_upload_fail_shape (env : Env) (p : Payload) (urls : List String)
    (hep : env.eventPath = true) (hcp : env.clientPayload = some p)
    (hau : p.assetUrls = some urls) (hok : ∀ u ∈ urls, env.fetchOk u = true)
    (hfi : env.fileInput2 = false) :
    run env = ⟨(mkdirEvents env ++ Event.log "Downloading assets..." ::
        dlEventsFrom env 0 urls) ++ bootEvents ++ loginEvents env ++
        projectEvents env ++ uploadEvents env (localPathsFrom 0 urls) ++
        [Event.closeBrowser], 1⟩ := by
  have hdl := downloadGo_ok env urls hok 0
  simp [run, hep, hcp, runPayload, hau, hdl, hfi]

theorem run_upload_fail_events (env : Env) (p : Payload) (urls : List String)
    (hep : env.eventPath = true) (hcp : env.clientPayload = some p)
    (hau : p.assetUrls = some urls) (hok : ∀ u ∈ urls, env.fetchOk u = true)
    (hfi : env.fileInput2 = false) :
    (run env).events = (mkdirEvents env ++ Event.log "Downloading assets..." ::
        dlEventsFrom env 0 urls) ++ bootEvents ++ loginEvents env ++
        projectEvents env ++ uploadEvents env (localPathsFrom 0 urls) ++
        [Event.closeBrowser] := by
  rw [run_upload_fail_shape env p urls hep hcp hau hok hfi]

/-- C7: when no file-input control is found even after the fallback
attempt, the run is fatal: exit code 1, the upload error is logged, the
browser is closed as the final action, and no subsequent step runs — no
file batch is attached, no caption text is typed, and no thumbnail,
Add-text or Export control is clicked; the only filesystem writes and
fetches are the asset downloads themselves (in particular no artifact is
written and no polling fetch occurs). -/
theorem c7_upload_control_missing_fatal (env : Env) (p : Payload)
    (urls : List String)
    (hep : env.eventPath = true) (hcp : env.clientPayload = some p)
    (hau : p.assetUrls = some urls) (hok : ∀ u ∈ urls, env.fetchOk u = true)
    (hfi : env.fileInput2 = false) :
    (run env).exitCode = 1 ∧
      Event.error uploadFailMsg ∈ (run env).events ∧
      (run env).events.getLast? = some Event.closeBrowser ∧
      typeCount (run env).events = 0 ∧
      uploadCount (run env).events = 0 ∧
      Event.click "thumb" ∉ (run env).events ∧
      Event.click "export" ∉ (run env).events ∧
      Event.click "addText" ∉ (run env).events ∧
      (run env).events.filterMap writeOf = dlWritesFrom env 0 urls ∧
      (run env).events.filterMap fetchOf = urls := by
  have hexit : (run env).exitCode = 1 := by
    rw [run_upload_fail_shape env p urls hep hcp hau hok hfi]
  have hev := run_upload_fail_events env p urls hep hcp hau hok hfi
  have hq : ((run env).events).all quiet = true := by
    rw [hev]
    simp [List.all_append, List.all_cons,
      all_quiet_of_all_tame (mkdirEvents_all_tame env),
      all_quiet_of_all_dlTame (dlEventsFrom_all_dlTame env urls 0),
      boot_all_quiet,
      all_quiet_of_all_tame (loginEvents_all_tame env),
      all_quiet_of_all_tame (projectEvents_all_tame env),
      all_quiet_of_all_tame (uploadEvents_fail_all_tame env _ hfi), quiet,
      typedOf, isUpload]
  refine ⟨hexit, ?_, ?_, typeCount_zero_of_all_quiet hq,
    uploadCount_zero_of_all_quiet hq,
    click_not_mem_of_all_quiet hq _ (Or.inl rfl),
    click_not_mem_of_all_quiet hq _ (Or.inr (Or.inl rfl)),
    click_not_mem_of_all_quiet hq _ (Or.inr (Or.inr rfl)), ?_, ?_⟩
  · rw [hev]
    simp [List.mem_append, uploadEvents, hfi]
  · rw [hev]
    exact List.getLast?_concat _
  · rw [hev]
    simp [List.filterMap_append, mkdirEvents_writeOf, writeOf, boot_writes,
      dlEventsFrom_writes,
      writes_nil_of_all_tame (loginEvents_all_tame env),
      writes_nil_of_all_tame (projectEvents_all_tame env),
      writes_nil_of_all_tame (uploadEvents_fail_all_tame env _ hfi)]
  · rw [hev]
    simp [List.filterMap_append, mkdirEvents_fetchOf, fetchOf, boot_fetch,
      dlEventsFrom_fetches,
      fetch_nil_of_all_tame (loginEvents_all_tame env),
      fetch_nil_of_all_tame (projectEvents_all_tame env),
      fetch_nil_of_all_tame (uploadEvents_fail_all_tame env _ hfi)]

/-- C7 witness: a concrete run where neither the direct query nor the
fallback finds a file input. -/
theorem c7_upload_control_missing_fatal_witness :
    (run envNoFileInput).exitCode = 1 ∧
      Event.error uploadFailMsg ∈ (run envNoFileInput).events ∧
      (run envNoFileInput).events.getLast? = some Event.closeBrowser ∧
      typeCount (run envNoFileInput).events = 0 ∧
      uploadCount (run envNoFileInput).events = 0 ∧
      Event.click "thumb" ∉ (run envNoFileInput).events ∧
      Event.click "export" ∉ (run envNoFileInput).events ∧
      Event.click "addText" ∉ (run envNoFileInput).events ∧
      (run envNoFileInput).events.filterMap writeOf =
        dlWritesFrom envNoFileInput 0 ["http://files.example/a.mp4"] ∧
      (run envNoFileInput).events.filterMap fetchOf =
        ["http://files.example/a.mp4"] :=
  c7_upload_control_missing_fatal envNoFileInput payloadBase
    ["http://files.example/a.mp4"] rfl rfl rfl (by decide) rfl

/-! ### C8: completion-poll timeout is a soft failure -/

theorem all_replicate_of {n : Nat} {e : Event} {p : Event → Bool}
    (h : p e = true) : (List.replicate n e).all p = true := by
  induction n with
  | zero => rfl
  | succ m ih => simp_all [List.replicate_succ]

theorem captionIter_all_tlTame (env : Env) (j : Json) (i : Nat) :
    (captionIter env j i).all tlTame = true := by
  unfold captionIter
  repeat' split
  all_goals simp [tlTame]

theorem captionLoopGo_all_tlTame (env : Env) (j : Json) :
    ∀ rem i, (captionLoopGo env j i rem).all tlTame = true := by
  intro rem
  induction rem with
  | zero => intro i; rfl
  | succ m ih =>
    intro i
    simp [captionLoopGo, List.all_append, captionIter_all_tlTame, ih]

theorem captionBlock_all_tlTame (env : Env) (st : Json) :
    (captionBlock env st).all tlTame = true := by
  unfold captionBlock captionLoop
  repeat' split
  all_goals simp [tlTame, List.all_append, captionLoopGo_all_tlTame]

theorem timelineStep_all_tlTame (env : Env) (st : Option Json) :
    (timelineStep env st).all tlTame = true := by
  unfold timelineStep captionPhase
  repeat' split
  all_goals
    simp [tlTame, List.all_append, all_replicate_of (show tlTame (Event.click "thumb") = true from rfl),
      captionBlock_all_tlTame]

theorem exportEvents_all_tlTame (env : Env) :
    (exportEvents env).all tlTame = true := by
  unfold exportEvents
  split <;> simp [tlTame]

theorem writes_nil_of_all_tlTame {l : List Event} (h : l.all tlTame = true) :
    l.filterMap writeOf = [] :=
  List.filterMap_eq_nil_iff.mpr
    (fun e he => (tlTame_spec (List.all_eq_true.mp h e he)).1)

theorem fetch_nil_of_all_tlTame {l : List Event} (h : l.all tlTame = true) :
    l.filterMap fetchOf = [] :=
  List.filterMap_eq_nil_iff.mpr
    (fun e he => (tlTame_spec (List.all_eq_true.mp h e he)).2.1)

theorem uploadEvents_writeOf (env : Env) (files : List String) :
    (uploadEvents env files).filterMap writeOf = [] := by
  unfold uploadEvents
  repeat' split
  all_goals simp [writeOf]

theorem uploadEvents_fetchOf (env : Env) (files : List String) :
    (uploadEvents env files).filterMap fetchOf = [] := by
  unfold uploadEvents
  repeat' split
  all_goals simp [fetchOf]

/-- C8: when the completion indicator never appears within the bounded
120-second wait, the run logs the polling warning, performs no filesystem
write beyond the asset downloads (so no output artifact is produced), and
the only fetches are the asset downloads; the process still exits with
status 0. -/
theorem c8_poll_timeout_soft_failure (env : Env) (p : Payload)
    (urls : List String)
    (hep : env.eventPath = true) (hcp : env.clientPayload = some p)
    (hau : p.assetUrls = some urls) (hok : ∀ u ∈ urls, env.fetchOk u = true)
    (hfi : env.fileInput2 = true) (hda : env.downloadAppears = false) :
    (run env).exitCode = 0 ∧
      Event.warn pollFailWarn ∈ (run env).events ∧
      (run env).events.filterMap writeOf = dlWritesFrom env 0 urls ∧
      (run env).events.filterMap fetchOf = urls := by
  have hexit : (run env).exitCode = 0 := by
    rw [run_ok_shape env p urls hep hcp hau hok hfi]
  have hev := run_ok_events env p urls hep hcp hau hok hfi
  have hpoll : pollEvents env (outputNameOf env p) = [Event.warn pollFailWarn] := by
    simp [pollEvents, hda]
  refine ⟨hexit, ?_, ?_, ?_⟩
  · rw [hev, hpoll]
    simp [List.mem_append]
  · rw [hev, hpoll]
    simp [List.filterMap_append, mkdirEvents_writeOf, writeOf, boot_writes,
      dlEventsFrom_writes,
      writes_nil_of_all_tame (loginEvents_all_tame env),
      writes_nil_of_all_tame (projectEvents_all_tame env),
      uploadEvents_writeOf,
      writes_nil_of_all_tlTame (timelineStep_all_tlTame env p.scriptText),
      writes_nil_of_all_tlTame (exportEvents_all_tlTame env)]
  · rw [hev, hpoll]
    simp [List.filterMap_append, mkdirEvents_fetchOf, fetchOf, boot_fetch,
      dlEventsFrom_fetches,
      fetch_nil_of_all_tame (loginEvents_all_tame env),
      fetch_nil_of_all_tame (projectEvents_all_tame env),
      uploadEvents_fetchOf,
      fetch_nil_of_all_tlTame (timelineStep_all_tlTame env p.scriptText),
      fetch_nil_of_all_tlTame (exportEvents_all_tlTame env)]

/-- C8 witness: a concrete run in which the download indicator never
appears. -/
theorem c8_poll_timeout_soft_failure_witness :
    (run envNoDownload).exitCode = 0 ∧
      Event.warn pollFailWarn ∈ (run envNoDownload).events ∧
      (run envNoDownload).events.filterMap writeOf =
        dlWritesFrom envNoDownload 0 ["http://files.example/a.mp4"] ∧
      (run envNoDownload).events.filterMap fetchOf =
        ["http://files.example/a.mp4"] :=
  c8_poll_timeout_soft_failure envNoDownload payloadBase
    ["http://files.example/a.mp4"] rfl rfl rfl (by decide) rfl rfl

/-! ### Counting lemmas for the caption step -/

theorem typed_nil_of_all_tame {l : List Event} (h : l.all tame = true) :
    l.filterMap typedOf = [] :=
  List.filterMap_eq_nil_iff.mpr
    (fun e he => (tame_spec (List.all_eq_true.mp h e he)).1)

theorem typed_nil_of_all_dlTame {l : List Event} (h : l.all dlTame = true) :
    l.filterMap typedOf = [] :=
  List.filterMap_eq_nil_iff.mpr
    (fun e he => (dlTame_spec (List.all_eq_true.mp h e he)).1)

theorem uploadEvents_typed (env : Env) (files : List String) :
    (uploadEvents env files).filterMap typedOf = [] := by
  unfold uploadEvents
  repeat' split
  all_goals simp [typedOf]

theorem exportEvents_typed (env : Env) :
    (exportEvents env).filterMap typedOf = [] := by
  unfold exportEvents
  split <;> simp [typedOf]

theorem pollEvents_typed (env : Env) (n : String) :
    (pollEvents env n).filterMap typedOf = [] := by
  unfold pollEvents
  repeat' split
  all_goals simp [typedOf]

theorem boot_typed : bootEvents.filterMap typedOf = [] := by decide

theorem mkdirEvents_typed (env : Env) :
    (mkdirEvents env).filterMap typedOf = [] := by
  unfold mkdirEvents
  split <;> simp [typedOf]

theorem filterMap_replicate_none {α : Type} {n : Nat} {e : Event}
    {f : Event → Option α} (h : f e = none) :
    (List.replicate n e).filterMap f = [] := by
  induction n with
  | zero => rfl
  | succ m ih => simp [List.replicate_succ, List.filterMap_cons, h, ih]

theorem filter_replicate_false {n : Nat} {e : Event} {p : Event → Bool}
    (h : p e = false) : (List.replicate n e).filter p = [] := by
  induction n with
  | zero => rfl
  | succ m ih => simp [List.replicate_succ, List.filter_cons, h, ih]

theorem addText_nil_of_all_tame {l : List Event} (h : l.all tame = true) :
    l.filter (fun e => e == Event.click "addText") = [] := by
  rw [List.filter_eq_nil_iff]
  intro e he
  have := (tame_spec (List.all_eq_true.mp h e he)).2.2.2.2
  simp [this]

theorem addText_nil_of_all_dlTame {l : List Event} (h : l.all dlTame = true) :
    l.filter (fun e => e == Event.click "addText") = [] := by
  rw [List.filter_eq_nil_iff]
  intro e he
  have := (dlTame_spec (List.all_eq_true.mp h e he)).2.2.1 "addText"
  simp [this]

theorem boot_addText :
    bootEvents.filter (fun e => e == Event.click "addText") = [] := by decide

theorem mkdirEvents_addText (env : Env) :
    (mkdirEvents env).filter (fun e => e == Event.click "addText") = [] := by
  unfold mkdirEvents
  split <;> simp

theorem uploadEvents_addText (env : Env) (files : List String) :
    (uploadEvents env files).filter (fun e => e == Event.click "addText") = [] := by
  unfold uploadEvents
  repeat' split
  all_goals simp

theorem exportEvents_addText (env : Env) :
    (exportEvents env).filter (fun e => e == Event.click "addText") = [] := by
  unfold exportEvents
  split <;> simp

theorem pollEvents_addText (env : Env) (n : String) :
    (pollEvents env n).filter (fun e => e == Event.click "addText") = [] := by
  unfold pollEvents
  repeat' split
  all_goals simp

/-- With a truthy caption script, the whole trace's caption-text events
and Add-text clicks are exactly those of the caption block. -/
theorem run_counts_caption (env : Env) (p : Payload) (urls : List String)
    (j : Json)
    (hep : env.eventPath = true) (hcp : env.clientPayload = some p)
    (hau : p.assetUrls = some urls) (hok : ∀ u ∈ urls, env.fetchOk u = true)
    (hfi : env.fileInput2 = true)
    (hth : env.thumbsAppear = true)
    (hst : p.scriptText = some j)
    (hjt : jsTruthy j = true) :
    (run env).events.filterMap typedOf = (captionBlock env j).filterMap typedOf ∧
      (run env).events.filter (fun e => e == Event.click "addText") =
        (captionBlock env j).filter (fun e => e == Event.click "addText") := by
  have hev := run_ok_events env p urls hep hcp hau hok hfi
  have htl : timelineStep env p.scriptText =
      Event.log ("Found thumbnails: " ++ toString env.thumbCount) ::
        (List.replicate (min env.thumbCount 12) (Event.click "thumb")
          ++ captionBlock env j) := by
    rw [hst]
    simp [timelineStep, captionPhase, hth, hjt]
  rw [hev, htl]
  constructor
  · simp [List.filterMap_append, mkdirEvents_typed, typedOf, boot_typed,
      typed_nil_of_all_dlTame (dlEventsFrom_all_dlTame env urls 0),
      typed_nil_of_all_tame (loginEvents_all_tame env),
      typed_nil_of_all_tame (projectEvents_all_tame env),
      uploadEvents_typed, exportEvents_typed, pollEvents_typed,
      filterMap_replicate_none (show typedOf (Event.click "thumb") = none from rfl)]
  · simp [List.filter_append, mkdirEvents_addText, boot_addText,
      addText_nil_of_all_dlTame (dlEventsFrom_all_dlTame env urls 0),
      addText_nil_of_all_tame (loginEvents_all_tame env),
      addText_nil_of_all_tame (projectEvents_all_tame env),
      uploadEvents_addText, exportEvents_addText, pollEvents_addText,
      filter_replicate_false
        (show ((Event.click "thumb") == Event.click "addText") = false from rfl)]

/-! ### C2: plain-text scriptText -/

/-- C2 counterexample: with `scriptText` set to the plain text
`Hello world` (not JSON), `JSON.parse` throws, the exception is caught
with only a warning, and no caption entry is ever inserted — zero
Add-text clicks and zero text injections — even though every caption UI
control is present.  This refutes the claim that plain text is parsed
into caption entries like a structured list with insertion proceeding
over them. -/
theorem c2_plain_text_no_captions :
    payloadPlainScript.scriptText = some (.str "Hello world") ∧
      jparse "Hello world" = none ∧
      envPlainScript.addTextBtn = true ∧
      envPlainScript.activeInput = true ∧
      typeCount (run envPlainScript).events = 0 ∧
      addTextClicks (run envPlainScript).events = 0 ∧
      Event.warn captionFailWarn ∈ (run envPlainScript).events := by decide

/-- C2 (amended): a `scriptText` string is handed to `JSON.parse`; when it
is not valid JSON (plain text), the parse exception is caught by the
caption try block: the caption-failure warning is logged and no caption
is inserted — zero Add-text clicks and zero caption-text injections in
the entire run. -/
theorem c2_plain_script_parse_caught (env : Env) (p : Payload)
    (urls : List String) (s : String)
    (hep : env.eventPath = true) (hcp : env.clientPayload = some p)
    (hau : p.assetUrls = some urls) (hok : ∀ u ∈ urls, env.fetchOk u = true)
    (hfi : env.fileInput2 = true) (hth : env.thumbsAppear = true)
    (hst : p.scriptText = some (.str s))
    (hs : s ≠ "") (hp : jparse s = none) :
    Event.warn captionFailWarn ∈ (run env).events ∧
      typeCount (run env).events = 0 ∧
      addTextClicks (run env).events = 0 := by
  have hbne : (s != "") = true := by simp [hs]
  have hjt : jsTruthy (Json.str s) = true := by simp [jsTruthy, hbne]
  have hres : resolveScript (.str s) = none := by
    simp [resolveScript, jsToString, hjt, hp]
  have hcb : captionBlock env (.str s) =
      (if env.textBtn then [Event.click "textPanel"] else []) ++
        [Event.warn captionFailWarn] := by
    unfold captionBlock
    rw [hres]
  have hcounts := run_counts_caption env p urls (.str s) hep hcp hau hok hfi
    hth hst hjt
  refine ⟨?_, ?_, ?_⟩
  · have hev := run_ok_events env p urls hep hcp hau hok hfi
    rw [hev]
    simp [List.mem_append, timelineStep, captionPhase, hth, hst, hjt, hcb]
  · unfold typeCount
    rw [hcounts.1, hcb]
    cases hbt : env.textBtn <;> simp [hbt, typedOf]
  · unfold addTextClicks
    rw [hcounts.2, hcb]
    cases hbt : env.textBtn <;> simp [hbt]

/-- C2 witness: the amended statement at the concrete plain-text
payload. -/
theorem c2_plain_script_parse_caught_witness :
    Event.warn captionFailWarn ∈ (run envPlainScript).events ∧
      typeCount (run envPlainScript).events = 0 ∧
      addTextClicks (run envPlainScript).events = 0 :=
  c2_plain_script_parse_caught envPlainScript payloadPlainScript
    ["http://files.example/a.mp4"] "Hello world" rfl rfl rfl (by decide)
    rfl rfl rfl (by decide) (by decide)

/-! ### C4: raw-string round-trip and caption cap -/

theorem captionIter_addText_le (env : Env) (j : Json) (i : Nat) :
    addTextClicks (captionIter env j i) ≤ 1 := by
  unfold addTextClicks captionIter
  repeat' split
  all_goals simp

theorem captionIter_typed_le (env : Env) (j : Json) (i : Nat) :
    typeCount (captionIter env j i) ≤ 1 := by
  unfold typeCount captionIter
  repeat' split
  all_goals simp [typedOf]

theorem addTextClicks_append (a b : List Event) :
    addTextClicks (a ++ b) = addTextClicks a + addTextClicks b := by
  simp [addTextClicks, List.filter_append]

theorem typeCount_append (a b : List Event) :
    typeCount (a ++ b) = typeCount a + typeCount b := by
  simp [typeCount, List.filterMap_append]

theorem captionLoopGo_addText_le (env : Env) (j : Json) :
    ∀ rem i, addTextClicks (captionLoopGo env j i rem) ≤ rem := by
  intro rem
  induction rem with
  | zero => intro i; simp [captionLoopGo, addTextClicks]
  | succ m ih =>
    intro i
    unfold captionLoopGo
    rw [addTextClicks_append]
    have h1 := captionIter_addText_le env j i
    have h2 := ih (i + 1)
    omega

theorem captionLoopGo_typed_le (env : Env) (j : Json) :
    ∀ rem i, typeCount (captionLoopGo env j i rem) ≤ rem := by
  intro rem
  induction rem with
  | zero => intro i; simp [captionLoopGo, typeCount]
  | succ m ih =>
    intro i
    unfold captionLoopGo
    rw [typeCount_append]
    have h1 := captionIter_typed_le env j i
    have h2 := ih (i + 1)
    omega

theorem captionBlock_arr_addText_le (env : Env) (l : List Json) :
    addTextClicks (captionBlock env (.arr l)) ≤ min 6 l.length := by
  have hloop := captionLoopGo_addText_le env (.arr l) (min 6 l.length) 0
  unfold captionBlock
  rw [show resolveScript (.arr l) = some (.arr l) from rfl]
  rw [addTextClicks_append]
  have hpanel : addTextClicks (if env.textBtn then [Event.click "textPanel"] else []) = 0 := by
    cases hbt : env.textBtn <;> simp [hbt, addTextClicks]
  rw [hpanel]
  simpa [captionLoop, captionIters, jsLen] using hloop

theorem captionBlock_arr_typed_le (env : Env) (l : List Json) :
    typeCount (captionBlock env (.arr l)) ≤ min 6 l.length := by
  have hloop := captionLoopGo_typed_le env (.arr l) (min 6 l.length) 0
  unfold captionBlock
  rw [show resolveScript (.arr l) = some (.arr l) from rfl]
  rw [typeCount_append]
  have hpanel : typeCount (if env.textBtn then [Event.click "textPanel"] else []) = 0 := by
    cases hbt : env.textBtn <;> simp [hbt, typeCount, typedOf]
  rw [hpanel]
  simpa [captionLoop, captionIters, jsLen] using hloop

theorem runPayload_ok_events (env : Env) (p : Payload) (urls : List String)
    (hau : p.assetUrls = some urls) (hok : ∀ u ∈ urls, env.fetchOk u = true)
    (hfi : env.fileInput2 = true) :
    (runPayload env p).events = (mkdirEvents env ++
        Event.log "Downloading assets..." ::
        dlEventsFrom env 0 urls) ++ bootEvents ++ loginEvents env ++
        projectEvents env ++ uploadEvents env (localPathsFrom 0 urls) ++
        timelineStep env p.scriptText ++ exportEvents env ++
        pollEvents env (outputNameOf env p) ++ [Event.closeBrowser] := by
  have hdl := downloadGo_ok env urls hok 0
  simp [runPayload, hau, hdl, hfi]

theorem runPayload_addText_eq_timeline (env : Env) (p : Payload)
    (urls : List String)
    (hau : p.assetUrls = some urls) (hok : ∀ u ∈ urls, env.fetchOk u = true)
    (hfi : env.fileInput2 = true) :
    addTextClicks (runPayload env p).events =
      addTextClicks (timelineStep env p.scriptText) := by
  rw [runPayload_ok_events env p urls hau hok hfi]
  simp [addTextClicks, List.filter_append, mkdirEvents_addText, boot_addText,
    addText_nil_of_all_dlTame (dlEventsFrom_all_dlTame env urls 0),
    addText_nil_of_all_tame (loginEvents_all_tame env),
    addText_nil_of_all_tame (projectEvents_all_tame env),
    uploadEvents_addText, exportEvents_addText, pollEvents_addText]

theorem runPayload_typed_eq_timeline (env : Env) (p : Payload)
    (urls : List String)
    (hau : p.assetUrls = some urls) (hok : ∀ u ∈ urls, env.fetchOk u = true)
    (hfi : env.fileInput2 = true) :
    typeCount (runPayload env p).events =
      typeCount (timelineStep env p.scriptText) := by
  rw [runPayload_ok_events env p urls hau hok hfi]
  simp [typeCount, List.filterMap_append, mkdirEvents_typed, typedOf,
    boot_typed,
    typed_nil_of_all_dlTame (dlEventsFrom_all_dlTame env urls 0),
    typed_nil_of_all_tame (loginEvents_all_tame env),
    typed_nil_of_all_tame (projectEvents_all_tame env),
    uploadEvents_typed, exportEvents_typed, pollEvents_typed]

theorem timelineStep_arr_addText_le (env : Env) (l : List Json) :
    addTextClicks (timelineStep env (some (.arr l))) ≤ min 6 l.length := by
  cases hth : env.thumbsAppear
  · simp [timelineStep, hth, addTextClicks]
  · have htl : timelineStep env (some (.arr l)) =
        Event.log ("Found thumbnails: " ++ toString env.thumbCount) ::
          (List.replicate (min env.thumbCount 12) (Event.click "thumb")
            ++ captionBlock env (.arr l)) := by
      simp [timelineStep, captionPhase, hth, jsTruthy]
    rw [htl]
    have hcl : addTextClicks (Event.log ("Found thumbnails: " ++
        toString env.thumbCount) ::
        (List.replicate (min env.thumbCount 12) (Event.click "thumb")
          ++ captionBlock env (.arr l))) =
        addTextClicks (captionBlock env (.arr l)) := by
      simp [addTextClicks, List.filter_cons, List.filter_append,
        filter_replicate_false
          (show ((Event.click "thumb") == Event.click "addText") = false from rfl)]
    rw [hcl]
    exact captionBlock_arr_addText_le env l

theorem timelineStep_arr_typed_le (env : Env) (l : List Json) :
    typeCount (timelineStep env (some (.arr l))) ≤ min 6 l.length := by
  cases hth : env.thumbsAppear
  · simp [timelineStep, hth, typeCount, typedOf]
  · have htl : timelineStep env (some (.arr l)) =
        Event.log ("Found thumbnails: " ++ toString env.thumbCount) ::
          (List.replicate (min env.thumbCount 12) (Event.click "thumb")
            ++ captionBlock env (.arr l)) := by
      simp [timelineStep, captionPhase, hth, jsTruthy]
    rw [htl]
    have hcl : typeCount (Event.log ("Found thumbnails: " ++
        toString env.thumbCount) ::
        (List.replicate (min env.thumbCount 12) (Event.click "thumb")
          ++ captionBlock env (.arr l))) =
        typeCount (captionBlock env (.arr l)) := by
      simp [typeCount, List.filterMap_cons, List.filterMap_append, typedOf,
        filterMap_replicate_none
          (show typedOf (Event.click "thumb") = none from rfl)]
    rw [hcl]
    exact captionBlock_arr_typed_le env l

theorem runPayload_scriptText_congr (env : Env) (p q : Payload)
    (h1 : p.assetUrls = q.assetUrls) (h3 : p.outputName = q.outputName)
    (h2 : timelineStep env p.scriptText = timelineStep env q.scriptText) :
    runPayload env p = runPayload env q := by
  unfold runPayload outputNameOf
  rw [h1, h2, h3]

theorem captionBlock_str_of_parse (env : Env) (s : String) (l : List Json)
    (hp : jparse s = some (.arr l)) (hs : s ≠ "") :
    captionBlock env (.str s) = captionBlock env (.arr l) := by
  have hbne : (s != "") = true := by simp [hs]
  have hjt : jsTruthy (Json.str s) = true := by simp [jsTruthy, hbne]
  unfold captionBlock
  rw [show resolveScript (.str s) = some (.arr l) from by
    simp [resolveScript, jsToString, hjt, hp]]
  rw [show resolveScript (.arr l) = some (.arr l) from rfl]

/-- C4: when `scriptText` is a raw JSON string encoding a list of N
entries, the whole run behaves identically to the same payload with the
pre-structured list (equal traces and exit codes), and in any run the
caption loop makes at most min(6, N) Add-text attempts and at most
min(6, N) text injections, never more. -/
theorem c4_string_script_roundtrip (env : Env) (p : Payload)
    (urls : List String) (s : String) (l : List Json)
    (hau : p.assetUrls = some urls) (hok : ∀ u ∈ urls, env.fetchOk u = true)
    (hfi : env.fileInput2 = true)
    (hst : p.scriptText = some (.str s))
    (hp : jparse s = some (.arr l)) :
    runPayload env p = runPayload env { p with scriptText := some (.arr l) } ∧
      addTextClicks (runPayload env p).events ≤ min 6 l.length ∧
      typeCount (runPayload env p).events ≤ min 6 l.length := by
  have hs : s ≠ "" := by
    intro h0
    rw [h0, show jparse "" = none from by decide] at hp
    exact Option.noConfusion hp
  have hbne : (s != "") = true := by simp [hs]
  have hjt : jsTruthy (Json.str s) = true := by simp [jsTruthy, hbne]
  have hph : captionPhase env (some (.str s)) =
      captionPhase env (some (.arr l)) := by
    simp only [captionPhase]
    rw [hjt, show jsTruthy (Json.arr l) = true from rfl]
    simp only [if_pos rfl]
    exact captionBlock_str_of_parse env s l hp hs
  have htl : timelineStep env (some (.str s)) =
      timelineStep env (some (.arr l)) := by
    unfold timelineStep
    rw [hph]
  refine ⟨?_, ?_, ?_⟩
  · exact runPayload_scriptText_congr env p _ rfl rfl (by rw [hst]; exact htl)
  · rw [runPayload_addText_eq_timeline env p urls hau hok hfi, hst, htl]
    exact timelineStep_arr_addText_le env l
  · rw [runPayload_typed_eq_timeline env p urls hau hok hfi, hst, htl]
    exact timelineStep_arr_typed_le env l

/-- C4 witness: the round-trip and cap at the concrete payload whose
`scriptText` is the raw string encoding one caption entry. -/
theorem c4_string_script_roundtrip_witness :
    runPayload envAll payloadHookStr =
        runPayload envAll { payloadHookStr with
          scriptText := some (.arr [.obj [("text", .str "Hook")]]) } ∧
      addTextClicks (runPayload envAll payloadHookStr).events ≤
        min 6 ([Json.obj [("text", .str "Hook")]] : List Json).length ∧
      typeCount (runPayload envAll payloadHookStr).events ≤
        min 6 ([Json.obj [("text", .str "Hook")]] : List Json).length :=
  c4_string_script_roundtrip envAll payloadHookStr
    ["http://files.example/a.mp4"] hookScript [.obj [("text", .str "Hook")]]
    rfl (by decide) rfl rfl (by decide)

/-! ### C10: the injected caption argument -/

theorem range_map_getD (l : List Json) (k : Nat) :
    (List.range (min k l.length)).map (fun i => l.getD i Json.null) =
      l.take k := by
  induction l generalizing k with
  | nil => simp
  | cons a t ih =>
    cases k with
    | zero => simp
    | succ m =>
      rw [List.length_cons, Nat.succ_min_succ, List.range_succ_eq_map]
      simp only [List.map_cons, List.map_map]
      rw [show ((fun i => (a :: t).getD i Json.null) ∘ Nat.succ) =
        (fun i => t.getD i Json.null) from rfl]
      rw [show (a :: t).getD 0 Json.null = a from rfl]
      rw [ih m]
      rfl

theorem jsGetProp_of_ne_null {e : Json} (h : e ≠ Json.null) :
    ∃ v, jsGetProp e "text" = some v := by
  cases e with
  | null => exact absurd rfl h
  | bool b => exact ⟨none, rfl⟩
  | num lex => exact ⟨none, rfl⟩
  | str s => exact ⟨none, rfl⟩
  | arr l => exact ⟨none, rfl⟩
  | obj fs => exact ⟨lookupLast fs "text", rfl⟩

theorem captionLoopGo_typed_exact (env : Env) (j : Json)
    (hab : env.addTextBtn = true) (hai : env.activeInput = true) :
    ∀ rem i, (captionLoopGo env j i rem).filterMap typedOf =
      (((List.range' i rem).map (fun k => jsIndex j k)).filter
        (fun e => !(e == Json.null))).map captionArg := by
  intro rem
  induction rem with
  | zero => intro i; rfl
  | succ m ih =>
    intro i
    rw [List.range'_succ]
    simp only [List.map_cons, List.filter_cons]
    by_cases hn : jsIndex j i = Json.null
    · rw [hn]
      simp [captionLoopGo, captionIter, hab, hai, hn, jsGetProp,
        List.filterMap_append, typedOf, ih]
    · obtain ⟨v, hv⟩ := jsGetProp_of_ne_null hn
      have hb : ((jsIndex j i == Json.null) : Bool) = false :=
        beq_eq_false_iff_ne.mpr hn
      rw [hb]
      simp [captionLoopGo, captionIter, hab, hai, hv,
        List.filterMap_append, typedOf, ih]

theorem captionBlock_arr_typed_exact (env : Env) (l : List Json)
    (hab : env.addTextBtn = true) (hai : env.activeInput = true) :
    (captionBlock env (.arr l)).filterMap typedOf =
      ((l.take 6).filter (fun e => !(e == Json.null))).map captionArg := by
  unfold captionBlock captionLoop
  rw [show resolveScript (.arr l) = some (.arr l) from rfl]
  rw [List.filterMap_append]
  have hpanel : (if env.textBtn then [Event.click "textPanel"]
      else []).filterMap typedOf = [] := by
    cases hbt : env.textBtn <;> simp [hbt, typedOf]
  rw [hpanel]
  rw [captionLoopGo_typed_exact env (.arr l) hab hai (captionIters (.arr l)) 0]
  rw [List.nil_append]
  rw [show captionIters (Json.arr l) = min 6 l.length from rfl]
  rw [← List.range_eq_range']
  rw [show (fun k => jsIndex (Json.arr l) k) =
    (fun k => l.getD k Json.null) from rfl]
  rw [range_map_getD l 6]

/-- C10 counterexample: with the structured script
`[null, \x7b"text":"Hook"\x7d]` and every caption control present, the
`null` entry is not typed at all: `scriptObj[0].text` throws a TypeError
that the per-caption catch turns into a warning, so the only injected
text is `Hook` — refuting the claim that an entry without a truthy
`text` field always has the whole entry value passed to the typing
call rather than being skipped. -/
theorem c10_null_entry_not_typed :
    payloadNullEntry.scriptText =
        some (.arr [Json.null, .obj [("text", .str "Hook")]]) ∧
      envNullEntry.addTextBtn = true ∧
      envNullEntry.activeInput = true ∧
      (run envNullEntry).events.filterMap typedOf = [Json.str "Hook"] ∧
      Event.warn ("Add text failed for caption 0") ∈ (run envNullEntry).events ∧
      Event.typeText Json.null ∉ (run envNullEntry).events := by decide

/-- C10 (amended): for each caption entry on which the property access
does not throw — any non-null entry — the injected argument is
`entry.text || entry`: over a structured list the injected values are
exactly `captionArg` of the non-null entries among the first min(6, N),
in order; the argument is the `text` property when that is truthy; a
plain-string entry is typed verbatim; and an entry whose `text` property
is `undefined` or the empty string falls back to the whole entry value
rather than being skipped.  A `null` entry instead makes
`scriptObj[i].text` throw a TypeError after the Add-text click; the
per-caption catch logs a warning and no text is injected for it. -/
theorem c10_caption_arg_or_fallback (env : Env) (p : Payload)
    (urls : List String) (l : List Json)
    (hep : env.eventPath = true) (hcp : env.clientPayload = some p)
    (hau : p.assetUrls = some urls) (hok : ∀ u ∈ urls, env.fetchOk u = true)
    (hfi : env.fileInput2 = true) (hth : env.thumbsAppear = true)
    (hst : p.scriptText = some (.arr l))
    (hab : env.addTextBtn = true) (hai : env.activeInput = true)
    (e2 t e3 e4 : Json) (s : String)
    (ht : jsGetProp e2 "text" = some (some t)) (htr : jsTruthy t = true)
    (h3 : jsGetProp e3 "text" = some none)
    (h4 : jsGetProp e4 "text" = some (some (.str ""))) :
    (run env).events.filterMap typedOf =
        ((l.take 6).filter (fun e => !(e == Json.null))).map captionArg ∧
      captionArg e2 = t ∧
      captionArg (.str s) = .str s ∧
      captionArg e3 = e3 ∧
      captionArg e4 = e4 := by
  have hjt : jsTruthy (Json.arr l) = true := rfl
  have hcounts := run_counts_caption env p urls (.arr l) hep hcp hau hok hfi
    hth hst hjt
  refine ⟨?_, ?_, ?_, ?_, ?_⟩
  · rw [hcounts.1]
    exact captionBlock_arr_typed_exact env l hab hai
  · simp [captionArg, ht, htr]
  · simp [captionArg, jsGetProp]
  · simp [captionArg, h3]
  · simp [captionArg, h4, jsTruthy]

/-- C10 witness: the amended statement at the concrete structured payload
holding a null entry, a truthy-text entry and an empty-text entry. -/
theorem c10_caption_arg_or_fallback_witness :
    (run envNullEntry).events.filterMap typedOf =
      ((([Json.null, Json.obj [("text", Json.str "Hook")]] :
          List Json).take 6).filter
        (fun e => !(e == Json.null))).map captionArg ∧
      captionArg (.obj [("text", .str "Hook")]) = Json.str "Hook" ∧
      captionArg (.str "verbatim") = Json.str "verbatim" ∧
      captionArg (.str "plain") = Json.str "plain" ∧
      captionArg (.obj [("text", .str "")]) = Json.obj [("text", .str "")] :=
  c10_caption_arg_or_fallback envNullEntry payloadNullEntry
    ["http://files.example/a.mp4"]
    [Json.null, Json.obj [("text", Json.str "Hook")]]
    rfl rfl rfl (by decide) rfl rfl rfl rfl rfl
    (.obj [("text", .str "Hook")]) (.str "Hook") (.str "plain")
    (.obj [("text", .str "")]) "verbatim" (by decide) (by decide) (by decide)
    (by decide)
